import Mathlib

/-!
Verification development for the YCK-VTON1 virtual try-on pipeline.

The Python source (src/services/gemini_service.py and src/app.py) is shallow
embedded below. External collaborators (cv2 image decoding, the YOLO detector,
the MediaPipe pose engine, the generation API) are modelled as oracle
parameters gathered in an environment record; the repository's own logic
(control flow of process_cv_grounding, prompt and message-part composition,
response interpretation, the click-handler gate) is translated function by
function. Python floats are modelled as rationals; round(x, 3) is modelled as
round-half-to-even at three decimal places, matching Python's documented
rounding mode.
-/

/-- Round-half-to-even on rationals, the rounding mode of Python's round. -/
def roundHalfEven (x : Rat) : Int :=
  if x - (⌊x⌋ : Rat) < 1/2 then ⌊x⌋
  else if 1/2 < x - (⌊x⌋ : Rat) then ⌊x⌋ + 1
  else if ⌊x⌋ % 2 = 0 then ⌊x⌋ else ⌊x⌋ + 1

/-- Model of Python round(x, 3): round half to even at the third decimal. -/
def pyRound3 (q : Rat) : Rat := (roundHalfEven (q * 1000) : Int) / 1000

/-- A rational carries exactly three decimal places of precision:
it is an integer number of thousandths. -/
def isRounded3 (q : Rat) : Prop := ∃ n : Int, q * 1000 = (n : Rat)

theorem roundHalfEven_ge_floor (x : Rat) : (⌊x⌋ : Int) ≤ roundHalfEven x := by
  unfold roundHalfEven
  split
  · exact le_refl _
  · split
    · omega
    · split <;> omega

theorem roundHalfEven_le_floor_add_one (x : Rat) :
    roundHalfEven x ≤ ⌊x⌋ + 1 := by
  unfold roundHalfEven
  split
  · omega
  · split
    · omega
    · split <;> omega

theorem roundHalfEven_nonneg (x : Rat) (hx : 0 ≤ x) : 0 ≤ roundHalfEven x := by
  have h1 : (0 : Int) ≤ ⌊x⌋ := by
    have := Int.le_floor.mpr (by exact_mod_cast hx : ((0 : Int) : Rat) ≤ x)
    omega
  have := roundHalfEven_ge_floor x
  omega

theorem roundHalfEven_le_of_le (x : Rat) (b : Int) (hx : x ≤ (b : Rat)) :
    roundHalfEven x ≤ b := by
  have hfl : ⌊x⌋ ≤ b := by
    have := Int.floor_le_floor hx
    rwa [Int.floor_intCast] at this
  rcases lt_or_eq_of_le hfl with h | h
  · have := roundHalfEven_le_floor_add_one x
    omega
  · -- the floor equals the bound, so x is exactly the integer b
    have hxb : (b : Rat) ≤ x := by
      have := Int.floor_le x
      rw [h] at this
      exact_mod_cast this
    have hxeq : x = (b : Rat) := le_antisymm hx hxb
    unfold roundHalfEven
    rw [hxeq]
    simp [Int.floor_intCast]

theorem pyRound3_nonneg (q : Rat) (h : 0 ≤ q) : 0 ≤ pyRound3 q := by
  unfold pyRound3
  have h1 : 0 ≤ roundHalfEven (q * 1000) :=
    roundHalfEven_nonneg _ (by positivity)
  positivity

theorem pyRound3_le_one (q : Rat) (h : q ≤ 1) : pyRound3 q ≤ 1 := by
  unfold pyRound3
  have h1 : roundHalfEven (q * 1000) ≤ 1000 := by
    apply roundHalfEven_le_of_le
    push_cast
    linarith
  rw [div_le_one (by norm_num)]
  exact_mod_cast h1

theorem pyRound3_mem_unit (q : Rat) (h0 : 0 ≤ q) (h1 : q ≤ 1) :
    0 ≤ pyRound3 q ∧ pyRound3 q ≤ 1 :=
  ⟨pyRound3_nonneg q h0, pyRound3_le_one q h1⟩

theorem pyRound3_isRounded3 (q : Rat) : isRounded3 (pyRound3 q) := by
  refine ⟨roundHalfEven (q * 1000), ?_⟩
  unfold pyRound3
  field_simp

/-- Character of a single decimal digit. -/
def digitChar (n : Nat) : Char :=
  match n % 10 with
  | 0 => '0' | 1 => '1' | 2 => '2' | 3 => '3' | 4 => '4'
  | 5 => '5' | 6 => '6' | 7 => '7' | 8 => '8' | _ => '9'

/-- Characters that can appear in the decimal rendering of a rounded float. -/
def numChars : List Char := ['0','1','2','3','4','5','6','7','8','9','.','-']

theorem digitChar_mem_numChars (n : Nat) : digitChar n ∈ numChars := by
  unfold digitChar
  have h : n % 10 < 10 := Nat.mod_lt _ (by omega)
  interval_cases h2 : n % 10 <;> simp [numChars]

/-- Decimal digits of a natural number, most significant first. -/
def natToStr (n : Nat) : List Char :=
  if h : n < 10 then [digitChar n]
  else natToStr (n / 10) ++ [digitChar (n % 10)]
termination_by n
decreasing_by
  have : 10 ≤ n := Nat.le_of_not_lt h
  omega

theorem natToStr_mem_numChars (n : Nat) :
    ∀ c ∈ natToStr n, c ∈ numChars := by
  induction n using Nat.strong_induction_on with
  | _ n ih =>
    unfold natToStr
    split
    · intro c hc
      simp only [List.mem_singleton] at hc
      exact hc ▸ digitChar_mem_numChars n
    · intro c hc
      rcases List.mem_append.mp hc with h1 | h1
      · exact ih (n / 10) (by omega) c h1
      · simp only [List.mem_singleton] at h1
        exact h1 ▸ digitChar_mem_numChars (n % 10)

/-- Drop trailing zero characters from a digit list. -/
def dropTrailingZeros (l : List Char) : List Char :=
  (l.reverse.dropWhile (fun c => c = '0')).reverse

/-- Fractional part of a thousandths count, rendered the way Python repr
renders it: padded to three digits then stripped of trailing zeros, with
at least one digit kept. -/
def fracStr (f : Nat) : List Char :=
  match dropTrailingZeros [digitChar (f / 100), digitChar (f / 10 % 10), digitChar (f % 10)] with
  | [] => ['0']
  | l => l

/-- Decimal rendering of a rational already rounded to three decimals,
matching Python float repr on such values (for example 0.5 renders as
the four characters 0, period, 5 and nothing else; 1 renders as 1.0). -/
def fmt3 (q : Rat) : String :=
  let n : Int := ⌊q * 1000⌋
  let a : Nat := n.natAbs
  let sgn : List Char := if n < 0 then ['-'] else []
  String.mk (sgn ++ natToStr (a / 1000) ++ ['.'] ++ fracStr (a % 1000))

theorem dropTrailingZeros_subset (l : List Char) :
    ∀ c ∈ dropTrailingZeros l, c ∈ l := by
  intro c hc
  unfold dropTrailingZeros at hc
  rw [List.mem_reverse] at hc
  have := List.dropWhile_sublist (l := l.reverse) (p := fun c => c = '0')
  have h2 := this.mem hc
  rwa [List.mem_reverse] at h2

theorem fracStr_mem_numChars (f : Nat) :
    ∀ c ∈ fracStr f, c ∈ numChars := by
  intro c hc
  unfold fracStr at hc
  rcases hdtz : dropTrailingZeros
      [digitChar (f / 100), digitChar (f / 10 % 10), digitChar (f % 10)] with _ | ⟨a, l⟩
  · rw [hdtz] at hc
    simp only [List.mem_singleton] at hc
    subst hc
    simp [numChars]
  · rw [hdtz] at hc
    have h2 : c ∈ dropTrailingZeros
        [digitChar (f / 100), digitChar (f / 10 % 10), digitChar (f % 10)] := by
      rw [hdtz]; exact hc
    have h3 := dropTrailingZeros_subset _ c h2
    simp only [List.mem_cons, List.mem_singleton, List.not_mem_nil, or_false] at h3
    rcases h3 with h | h | h <;> exact h ▸ digitChar_mem_numChars _

theorem fmt3_mem_numChars (q : Rat) :
    ∀ c ∈ (fmt3 q).data, c ∈ numChars := by
  intro c hc
  unfold fmt3 at hc
  simp only [List.mem_append, List.mem_cons, List.mem_singleton,
    List.not_mem_nil, or_false] at hc
  rcases hc with ((h | h) | h) | h
  · split at h
    · simp only [List.mem_singleton] at h
      subst h
      simp [numChars]
    · simp at h
  · exact natToStr_mem_numChars _ c h
  · subst h
    simp [numChars]
  · exact fracStr_mem_numChars _ c h

/-- The standard base64 alphabet. -/
def base64Chars : String :=
  "ABCDEFGHIJKLMNOPQRSTUVWXYZabcdefghijklmnopqrstuvwxyz0123456789+/"

/-- Character for a six-bit group. -/
def b64CharOf (n : Nat) : Char := base64Chars.data.getD n '='

/-- Base64-encode a byte list (each entry taken mod 256), with padding,
modelling the Python standard library encoder. -/
def b64encodeList : List Nat → List Char
  | a :: b :: c :: rest =>
      b64CharOf ((a % 256) / 4) ::
      b64CharOf ((a % 256) % 4 * 16 + (b % 256) / 16) ::
      b64CharOf ((b % 256) % 16 * 4 + (c % 256) / 64) ::
      b64CharOf ((c % 256) % 64) :: b64encodeList rest
  | [a, b] =>
      [b64CharOf ((a % 256) / 4),
       b64CharOf ((a % 256) % 4 * 16 + (b % 256) / 16),
       b64CharOf ((b % 256) % 16 * 4), '=']
  | [a] =>
      [b64CharOf ((a % 256) / 4), b64CharOf ((a % 256) % 4 * 16), '=', '=']
  | [] => []

def b64encode (bs : List Nat) : String := String.mk (b64encodeList bs)

/-- Six-bit value of a base64 alphabet character, none for padding or
foreign characters. -/
def b64Index (c : Char) : Option Nat := base64Chars.data.findIdx? (fun d => d = c)

/-- Reassemble bytes from a list of six-bit groups. -/
def b64decodeGroups : List Nat → List Nat
  | a :: b :: c :: d :: rest =>
      (a * 4 + b / 16) :: (b % 16 * 16 + c / 4) :: (c % 4 * 64 + d) ::
      b64decodeGroups rest
  | [a, b, c] => [a * 4 + b / 16, b % 16 * 16 + c / 4]
  | [a, b] => [a * 4 + b / 16]
  | _ => []

/-- Base64-decode a string, modelling the Python standard library decoder
on well-formed input. -/
def b64decode (s : String) : List Nat := b64decodeGroups (s.data.filterMap b64Index)

/-- Decoded image, abstract pixel payload handed to the CV oracles. -/
abbrev Img := List Nat

/-- Normalized xyxy bounding box as produced by the detector oracle. -/
structure YoloBox where
  x1 : Rat
  y1 : Rat
  x2 : Rat
  y2 : Rat

/-- One detector result, a list of boxes in confidence order. -/
structure YoloResult where
  boxes : List YoloBox

/-- Landmark index constants of the MediaPipe PoseLandmark enumeration. -/
def LEFT_SHOULDER : Nat := 11
def RIGHT_SHOULDER : Nat := 12
def LEFT_HIP : Nat := 23
def RIGHT_HIP : Nat := 24

/-- External computer-vision collaborators: cv2 decoding, the optional
module-level YOLO model (None when initialization failed), cv2 color
conversion and the MediaPipe pose engine. The yolo field takes the image
and the classes argument of the call. The pose field returns the landmark
array (indexed by PoseLandmark) when a pose was found. -/
structure CvEnv where
  imdecode : List Nat → Option Img
  yolo_model : Option (Img → List Nat → List YoloResult)
  cvtColor : Img → Img
  pose_process : Img → Option (Nat → Rat × Rat)

/-- Telemetry record returned by process_cv_grounding. -/
structure GroundingTelemetry where
  person_detected : Bool
  landmarks : List (String × (Rat × Rat))
  spatial_hints : String
deriving DecidableEq

/-- Python repr of a list of floats, as interpolated by the f-string. -/
def listRepr (l : List Rat) : String := "[" ++ commaSep l ++ "]"
where commaSep : List Rat → String
  | [] => ""
  | [x] => fmt3 x
  | x :: xs => fmt3 x ++ ", " ++ commaSep xs

/-- Output of json.dumps on the critical-points dictionary: keys in
insertion order, each value a two-element list. -/
def jsonDumpsPoints (pts : List (String × (Rat × Rat))) : String :=
  "\x7b" ++ entries pts ++ "\x7d"
where entries : List (String × (Rat × Rat)) → String
  | [] => ""
  | [(k, (x, y))] => "\"" ++ k ++ "\": [" ++ fmt3 x ++ ", " ++ fmt3 y ++ "]"
  | (k, (x, y)) :: rest =>
      "\"" ++ k ++ "\": [" ++ fmt3 x ++ ", " ++ fmt3 y ++ "], " ++ entries rest

/-- Spatial-hint segment appended on a person detection. -/
def subjectBoxSegment (box : List Rat) : String :=
  "SUBJECT_BOX: " ++ listRepr box ++ ". "

/-- Spatial-hint segment appended on a pose-estimation success. -/
def skeletonSegment (pts : List (String × (Rat × Rat))) : String :=
  "SKELETON_MAP: " ++ jsonDumpsPoints pts ++ ". "

/-- Rounded first box of the first detector result, as a four-element list. -/
def roundedBox (b : YoloBox) : List Rat :=
  [pyRound3 b.x1, pyRound3 b.y1, pyRound3 b.x2, pyRound3 b.y2]

/-- The four critical pose points extracted from the landmark array, with
coordinates rounded to three decimals, in source order. -/
def criticalPoints (lm : Nat → Rat × Rat) : List (String × (Rat × Rat)) :=
  [("L_Shoulder", (pyRound3 (lm LEFT_SHOULDER).1, pyRound3 (lm LEFT_SHOULDER).2)),
   ("R_Shoulder", (pyRound3 (lm RIGHT_SHOULDER).1, pyRound3 (lm RIGHT_SHOULDER).2)),
   ("L_Hip", (pyRound3 (lm LEFT_HIP).1, pyRound3 (lm LEFT_HIP).2)),
   ("R_Hip", (pyRound3 (lm RIGHT_HIP).1, pyRound3 (lm RIGHT_HIP).2))]

/-- Embedding of process_cv_grounding from src/services/gemini_service.py:
decode the base64 payload; on decode failure return the fail-closed record;
otherwise run the optional YOLO detection (classes restricted to [0]),
taking the first box of the first result, then run pose estimation on the
color-converted image and extract the four critical points. -/
def process_cv_grounding (env : CvEnv) (image_b64 : String) : GroundingTelemetry :=
  match env.imdecode (b64decode image_b64) with
  | none =>
      { person_detected := false, landmarks := [], spatial_hints := "IMAGE_DECODE_ERROR" }
  | some img =>
      let t0 : GroundingTelemetry :=
        { person_detected := false, landmarks := [], spatial_hints := "" }
      let t1 : GroundingTelemetry :=
        match env.yolo_model with
        | none => t0
        | some m =>
            match m img [0] with
            | [] => t0
            | r0 :: _ =>
                match r0.boxes with
                | [] => t0
                | b0 :: _ =>
                    { t0 with
                      person_detected := true,
                      spatial_hints := t0.spatial_hints ++ subjectBoxSegment (roundedBox b0) }
      match env.pose_process (env.cvtColor img) with
      | none => t1
      | some lm =>
          { t1 with
            landmarks := criticalPoints lm,
            spatial_hints := t1.spatial_hints ++ skeletonSegment (criticalPoints lm) }

/-- Whether the detector step fires for the given environment and image:
the module-level model exists and its first result has at least one box. -/
def yoloHit (env : CvEnv) (img : Img) : Bool :=
  match env.yolo_model with
  | none => false
  | some m =>
      match m img [0] with
      | [] => false
      | r0 :: _ => !r0.boxes.isEmpty

/-- First box of the first result of the detector call, when present. -/
def firstYoloBox (env : CvEnv) (img : Img) : Option YoloBox :=
  match env.yolo_model with
  | none => none
  | some m =>
      match m img [0] with
      | [] => none
      | r0 :: _ => r0.boxes.head?

/-- The needle string occurs as a contiguous substring of the haystack. -/
def strOccurs (needle hay : String) : Prop :=
  ∃ l r : List Char, hay.data = l ++ needle.data ++ r

theorem strOccurs_refl (s : String) : strOccurs s s :=
  ⟨[], [], by simp⟩

theorem strOccurs_chars {n h : String} (ho : strOccurs n h) :
    ∀ c ∈ n.data, c ∈ h.data := by
  rcases ho with ⟨l, r, he⟩
  intro c hc
  rw [he]
  simp [hc]

/-- A typed message part of the generation request (types.Part in the source), as built by
types.Part.from_text and types.MsgPart.from_bytes. -/
inductive MsgPart where
  | text (s : String)
  | from_bytes (data : List Nat) (mime_type : String)
deriving DecidableEq

/-- Instruction block of the analysis composition (the f-string of
analyze_try_on with the spatial hints interpolated). -/
def analysisPrompt (hints : String) : String :=
  "\n    Act as a Neural Fashion Analysis Engine for High-Fidelity Try-On. \n    CV TELEMETRY: "
  ++ hints ++
  "\n\n    TASK: Perform a \"Visual Anchor\" analysis of the reference garments.\n    - Identify EXACT logos, unique textures, and patterns.\n    - Create a manifest to ensure PIXEL-PERFECT preservation of these assets.\n    - Map garment landmarks to the SKELETON_MAP provided.\n    - MUST NOT hallucinate generic designs.\n    "

/-- Instruction block of the synthesis composition (the f-string of
generate_virtual_try_on_image with hints and manifest interpolated). -/
def synthesisPrompt (hints technical_prompt : String) : String :=
  "\n    MANDATORY PIXEL-PERFECT RENDER.\n    GROUNDING_DATA: "
  ++ hints ++
  "\n    MANIFEST: " ++ technical_prompt ++
  "\n\n    INSTRUCTIONS:\n    1. Transfer the colors, textures, and EXACT logos from SOURCE images onto the TARGET_PERSON.\n    2. DO NOT change the garment design. No generic replacements allowed.\n    3. Keep the face, hair, and original environment of TARGET_PERSON exactly as provided.\n    4. Drape fabrics according to the SKELETON_MAP points.\n    "

/-- One conditional garment block: Python appends the label text and the
decoded image iff the optional base64 payload is truthy (not None and not
the empty string). -/
def garmentParts (label : String) (o : Option String) : List MsgPart :=
  match o with
  | none => []
  | some s => if s = "" then [] else [MsgPart.text label, MsgPart.from_bytes (b64decode s) "image/jpeg"]

/-- Message parts of the analysis call, in composition order. -/
def analyzeContents (person_b64 : String) (top_b64 bottom_b64 dress_b64 : Option String)
    (hints : String) : List MsgPart :=
  [MsgPart.text (analysisPrompt hints),
   MsgPart.text "TARGET_PERSON:",
   MsgPart.from_bytes (b64decode person_b64) "image/jpeg"]
  ++ garmentParts "SOURCE_TOP (Exact design source):" top_b64
  ++ garmentParts "SOURCE_BOTTOM (Exact texture source):" bottom_b64
  ++ garmentParts "SOURCE_DRESS (Exact pattern source):" dress_b64

/-- Message parts of the synthesis call, in composition order. -/
def generateContents (person_b64 : String) (top_b64 bottom_b64 dress_b64 : Option String)
    (hints technical_prompt : String) : List MsgPart :=
  [MsgPart.text (synthesisPrompt hints technical_prompt),
   MsgPart.text "TARGET_PERSON:",
   MsgPart.from_bytes (b64decode person_b64) "image/jpeg"]
  ++ garmentParts "SOURCE_TOP (Preserve this exact logo):" top_b64
  ++ garmentParts "SOURCE_BOTTOM (Preserve this exact fabric):" bottom_b64
  ++ garmentParts "SOURCE_DRESS (Preserve this exact pattern):" dress_b64

/-- Response-schema node for the structured analysis output. -/
inductive SchemaNode where
  | strNode
  | objNode (properties : List (String × SchemaNode)) (required : List String)

/-- The response schema of the analysis call, from the source config. -/
def analysisResponseSchema : SchemaNode :=
  .objNode
    [("garmentDescription", .strNode),
     ("personDescription", .strNode),
     ("bodySize", .strNode),
     ("technicalPrompt", .strNode),
     ("stylingSuggestions",
       .objNode
         [("suggestedPants", .strNode),
          ("suggestedShoes", .strNode),
          ("suggestedShirt", .strNode),
          ("styleVibe", .strNode)] [])]
    ["garmentDescription", "personDescription", "bodySize", "technicalPrompt",
     "stylingSuggestions"]

/-- Top-level required field list of the analysis response schema. -/
def analysisRequiredFields : List String :=
  ["garmentDescription", "personDescription", "bodySize", "technicalPrompt",
   "stylingSuggestions"]

/-- Top-level property names of the analysis response schema. -/
def analysisSchemaProperties : List String :=
  ["garmentDescription", "personDescription", "bodySize", "technicalPrompt",
   "stylingSuggestions"]

/-- Request configuration, modelling types.GenerateContentConfig. -/
structure GenerateContentConfig where
  temperature : Rat
  response_mime_type : String
  response_schema : SchemaNode

/-- A generate_content request: model name, ordered parts, optional config. -/
structure Request where
  model : String
  contents : List MsgPart
  config : Option GenerateContentConfig

/-- Request built by analyze_try_on before the network call, including the
CV grounding pass on the person image. The gender argument is accepted as
in the source signature. -/
def analyze_try_on_request (env : CvEnv) (person_b64 : String)
    (top_b64 bottom_b64 dress_b64 : Option String) (gender : String) : Request :=
  let cv_data := process_cv_grounding env person_b64
  { model := "gemini-3-flash-preview",
    contents := analyzeContents person_b64 top_b64 bottom_b64 dress_b64 cv_data.spatial_hints,
    config := some
      { temperature := 0,
        response_mime_type := "application/json",
        response_schema := analysisResponseSchema } }

/-- Request built by generate_virtual_try_on_image before the network call.
The body_size and gender arguments are accepted as in the source signature. -/
def generate_try_on_request (env : CvEnv) (person_b64 : String)
    (top_b64 bottom_b64 dress_b64 : Option String)
    (technical_prompt body_size gender : String) : Request :=
  let cv_data := process_cv_grounding env person_b64
  { model := "gemini-2.5-flash-image",
    contents := generateContents person_b64 top_b64 bottom_b64 dress_b64
      cv_data.spatial_hints technical_prompt,
    config := none }

/-- JSON values, the result type of json.loads. -/
inductive JVal where
  | jstr (s : String)
  | jnum (q : Rat)
  | jbool (b : Bool)
  | jnull
  | jarr (l : List JVal)
  | jobj (fields : List (String × JVal))

/-- Python dict lookup on an insertion-ordered association list. -/
def dictGet? : List (String × JVal) → String → Option JVal
  | [], _ => none
  | (k1, v) :: rest, k => if k1 = k then some v else dictGet? rest k

/-- Python dict assignment: replace in place when the key exists,
append at the end otherwise. -/
def dictSet : List (String × JVal) → String → JVal → List (String × JVal)
  | [], k, v => [(k, v)]
  | (k1, v1) :: rest, k, v =>
      if k1 = k then (k, v) :: rest else (k1, v1) :: dictSet rest k v

/-- Python dict.get with a default value. -/
def pyGet (m : List (String × JVal)) (k : String) (default : JVal) : JVal :=
  (dictGet? m k).getD default

/-- Python subscript access: raises KeyError when the key is absent. -/
def pyGetItem (m : List (String × JVal)) (k : String) : Except String JVal :=
  match dictGet? m k with
  | some v => Except.ok v
  | none => Except.error ("KeyError: " ++ k)

/-- JSON form of the telemetry record assigned into the result dict. -/
def telemetryJVal (t : GroundingTelemetry) : JVal :=
  .jobj
    [("person_detected", .jbool t.person_detected),
     ("landmarks", .jobj (t.landmarks.map fun p => (p.1, .jarr [.jnum p.2.1, .jnum p.2.2]))),
     ("spatial_hints", .jstr t.spatial_hints)]

/-- Tail of analyze_try_on after the network call: json.loads may fail on
malformed text (propagated), and on success the cv_telemetry key is
assigned into the parsed dict before returning. No field validation is
performed here. -/
def analyze_try_on_result (loads : Except String (List (String × JVal)))
    (cv_data : GroundingTelemetry) : Except String (List (String × JVal)) :=
  match loads with
  | Except.error e => Except.error e
  | Except.ok result => Except.ok (dictSet result "cv_telemetry" (telemetryJVal cv_data))

/-- Inline binary payload of a response part. -/
structure InlineData where
  mime_type : String
  data : List Nat

/-- A content part of the synthesis response. -/
structure RespPart where
  inline_data : Option InlineData

/-- Content of a response candidate. -/
structure RespContent where
  parts : List RespPart

/-- One candidate of the synthesis response. -/
structure Candidate where
  content : RespContent

/-- The synthesis response: a list of candidates. -/
structure SynthResponse where
  candidates : List Candidate

/-- Scan of the parts loop: first part with inline data becomes a data URI. -/
def findInlineDataUri : List RespPart → Option String
  | [] => none
  | p :: rest =>
      match p.inline_data with
      | some d => some ("data:" ++ d.mime_type ++ ";base64," ++ b64encode d.data)
      | none => findInlineDataUri rest

/-- Tail of generate_virtual_try_on_image after the network call: indexing
candidates[0] raises IndexError on an empty candidate list; otherwise the
parts of the first candidate are scanned in order and the function returns
the first inline payload as a data URI, or None when no part carries one. -/
def generate_try_on_result (response : SynthResponse) : Except String (Option String) :=
  match response.candidates with
  | [] => Except.error "IndexError: list index out of range"
  | c :: _ => Except.ok (findInlineDataUri c.content.parts)

/-- Outcome of the click handler in src/app.py. -/
inductive ClickOutcome where
  | warned
  | ran (person_b64 : String) (top_b64 bottom_b64 dress_b64 : Option String) (gender : String)
deriving DecidableEq

/-- The to_b64 helper of the click handler: base64-encode the uploaded
file's bytes, None when the file is absent. -/
def to_b64 (f : Option (List Nat)) : Option String := f.map b64encode

/-- Precondition gate of the button handler: a person upload and at least
one garment upload must be present (uploaded-file objects have default
object truthiness, so presence is the test). -/
def pipelineGate (person_img top_img bottom_img dress_img : Option (List Nat)) : Bool :=
  person_img.isSome && (top_img.isSome || bottom_img.isSome || dress_img.isSome)

/-- Embedding of the button handler of src/app.py: when the gate fails the
handler emits the warning and stops; otherwise it converts the uploads and
proceeds into the pipeline with the converted payloads. -/
def clickHandler (person_img top_img bottom_img dress_img : Option (List Nat))
    (gender : String) : ClickOutcome :=
  if pipelineGate person_img top_img bottom_img dress_img then
    ClickOutcome.ran (b64encode (person_img.getD []))
      (to_b64 top_img) (to_b64 bottom_img) (to_b64 dress_img) gender
  else
    ClickOutcome.warned

theorem process_cv_grounding_decode_none (env : CvEnv) (image_b64 : String)
    (h : env.imdecode (b64decode image_b64) = none) :
    process_cv_grounding env image_b64 =
      { person_detected := false, landmarks := [], spatial_hints := "IMAGE_DECODE_ERROR" } := by
  unfold process_cv_grounding
  rw [h]

theorem process_cv_grounding_decode_some (env : CvEnv) (image_b64 : String) (img : Img)
    (h : env.imdecode (b64decode image_b64) = some img) :
    process_cv_grounding env image_b64 =
      { person_detected := yoloHit env img,
        landmarks :=
          match env.pose_process (env.cvtColor img) with
          | none => []
          | some lm => criticalPoints lm,
        spatial_hints :=
          (match firstYoloBox env img with
            | none => ""
            | some b0 => subjectBoxSegment (roundedBox b0)) ++
          (match env.pose_process (env.cvtColor img) with
            | none => ""
            | some lm => skeletonSegment (criticalPoints lm)) } := by
  unfold process_cv_grounding yoloHit firstYoloBox
  rw [h]
  cases hy : env.yolo_model with
  | none =>
      cases hp : env.pose_process (env.cvtColor img) <;> simp [hp]
  | some m =>
      cases hr : m img [0] with
      | nil =>
          cases hp : env.pose_process (env.cvtColor img) <;> simp [hr, hp]
      | cons r0 rest =>
          cases hbx : r0.boxes with
          | nil =>
              cases hp : env.pose_process (env.cvtColor img) <;> simp [hr, hbx, hp]
          | cons b0 bs =>
              cases hp : env.pose_process (env.cvtColor img) <;> simp [hr, hbx, hp]

/-- Environment whose image decoding always fails (for concrete evaluation). -/
def envDecodeFail : CvEnv :=
  { imdecode := fun _ => none,
    yolo_model := none,
    cvtColor := id,
    pose_process := fun _ => none }

/-- Environment where decoding succeeds, the detector finds one box and the
pose engine finds landmarks at the image center (for concrete evaluation). -/
def envFull : CvEnv :=
  { imdecode := fun _ => some [1],
    yolo_model := some (fun _ _ => [{ boxes := [{ x1 := 0, y1 := 0, x2 := 1/2, y2 := 1/2 }] }]),
    cvtColor := id,
    pose_process := fun _ => some (fun _ => (1/2, 1/2)) }

/-- Environment where decoding succeeds but neither model yields anything
(detector unavailable, no pose found). -/
def envBare : CvEnv :=
  { imdecode := fun _ => some [1],
    yolo_model := none,
    cvtColor := id,
    pose_process := fun _ => none }

/-- C1: for every input whose image payload fails to decode,
process_cv_grounding returns the fail-closed telemetry record with
person_detected false, empty landmarks and the decode-error marker in
spatial_hints. The embedding is a total function, so no exception escapes
this boundary for malformed image input. -/
theorem decode_failure_fails_closed (env : CvEnv) (image_b64 : String)
    (h : env.imdecode (b64decode image_b64) = none) :
    process_cv_grounding env image_b64 =
      { person_detected := false, landmarks := [], spatial_hints := "IMAGE_DECODE_ERROR" } ∧
    (process_cv_grounding env image_b64).person_detected = false ∧
    (process_cv_grounding env image_b64).landmarks = [] ∧
    strOccurs "IMAGE_DECODE_ERROR" (process_cv_grounding env image_b64).spatial_hints := by
  have he := process_cv_grounding_decode_none env image_b64 h
  refine ⟨he, ?_, ?_, ?_⟩ <;> rw [he]
  exact strOccurs_refl _

/-- Witness for C1 at a concrete failing environment and payload. -/
theorem decode_failure_fails_closed_witness :
    process_cv_grounding envDecodeFail "Zm9v" =
      { person_detected := false, landmarks := [], spatial_hints := "IMAGE_DECODE_ERROR" } :=
  (decode_failure_fails_closed envDecodeFail "Zm9v" rfl).1

/-- C10: two invocations differing only in the gender argument (analysis)
or only in the gender and body_size arguments (synthesis) build identical
requests: same model name, same composed message parts, same configuration.
The parameters are accepted but never influence the external call. -/
theorem gender_body_size_never_influence_request (env : CvEnv) (person_b64 : String)
    (top_b64 bottom_b64 dress_b64 : Option String)
    (technical_prompt body_size1 body_size2 gender1 gender2 : String) :
    analyze_try_on_request env person_b64 top_b64 bottom_b64 dress_b64 gender1 =
      analyze_try_on_request env person_b64 top_b64 bottom_b64 dress_b64 gender2 ∧
    generate_try_on_request env person_b64 top_b64 bottom_b64 dress_b64
        technical_prompt body_size1 gender1 =
      generate_try_on_request env person_b64 top_b64 bottom_b64 dress_b64
        technical_prompt body_size2 gender2 :=
  ⟨rfl, rfl⟩

/-- C8: when no garment image accompanies the person image the click
handler warns and stops, so neither composition is ever built; conversely
a run outcome can only arise when a person upload and at least one garment
upload are present. -/
theorem pipeline_requires_person_and_garment
    (p t b d : Option (List Nat)) (g : String)
    (hng : t = none ∧ b = none ∧ d = none) :
    clickHandler p t b d g = ClickOutcome.warned ∧
    (∀ (p2 t2 b2 d2 : Option (List Nat)) (g2 pb : String)
        (tb bb db : Option String) (gb : String),
      clickHandler p2 t2 b2 d2 g2 = ClickOutcome.ran pb tb bb db gb →
      p2.isSome ∧ (t2.isSome ∨ b2.isSome ∨ d2.isSome)) := by
  constructor
  · obtain ⟨ht, hb2, hd2⟩ := hng
    subst ht; subst hb2; subst hd2
    simp [clickHandler, pipelineGate]
  · intro p2 t2 b2 d2 g2 pb tb bb db gb hrun
    unfold clickHandler at hrun
    by_cases hgate : pipelineGate p2 t2 b2 d2 = true
    · unfold pipelineGate at hgate
      simp only [Bool.and_eq_true, Bool.or_eq_true] at hgate
      tauto
    · rw [if_neg (by simpa using hgate)] at hrun
      exact absurd hrun (by simp)

/-- Witness for C8 at a concrete portrait-only invocation. -/
theorem pipeline_requires_person_and_garment_witness :
    clickHandler (some [1, 2]) none none none "MEN" = ClickOutcome.warned :=
  (pipeline_requires_person_and_garment (some [1, 2]) none none none "MEN"
    ⟨rfl, rfl, rfl⟩).1

theorem dictGet?_dictSet_same (m : List (String × JVal)) (k : String) (v : JVal) :
    dictGet? (dictSet m k v) k = some v := by
  induction m with
  | nil => simp [dictSet, dictGet?]
  | cons kv rest ih =>
      obtain ⟨k1, v1⟩ := kv
      by_cases hk : k1 = k
      · subst hk
        simp [dictSet, dictGet?]
      · simp [dictSet, dictGet?, hk, ih]

theorem dictGet?_dictSet_ne (m : List (String × JVal)) (k k2 : String) (v : JVal)
    (h : k ≠ k2) : dictGet? (dictSet m k v) k2 = dictGet? m k2 := by
  induction m with
  | nil => simp [dictSet, dictGet?, h]
  | cons kv rest ih =>
      obtain ⟨k1, v1⟩ := kv
      by_cases hk : k1 = k
      · subst hk
        simp [dictSet, dictGet?, h]
      · simp [dictSet, dictGet?, hk, ih]

/-- C9: after a successful analysis call the parsed result is extended with
cv_telemetry holding the grounding telemetry that produced the request;
cv_telemetry is not among the schema's properties or required fields, and
every other key of the parsed response is passed through unchanged. -/
theorem analysis_result_extended_with_telemetry
    (parsed : List (String × JVal)) (cv_data : GroundingTelemetry) :
    analyze_try_on_result (Except.ok parsed) cv_data =
      Except.ok (dictSet parsed "cv_telemetry" (telemetryJVal cv_data)) ∧
    dictGet? (dictSet parsed "cv_telemetry" (telemetryJVal cv_data)) "cv_telemetry" =
      some (telemetryJVal cv_data) ∧
    (∀ k, k ≠ "cv_telemetry" →
      dictGet? (dictSet parsed "cv_telemetry" (telemetryJVal cv_data)) k = dictGet? parsed k) ∧
    "cv_telemetry" ∉ analysisRequiredFields ∧
    "cv_telemetry" ∉ analysisSchemaProperties := by
  refine ⟨rfl, dictGet?_dictSet_same parsed _ _, ?_, by decide, by decide⟩
  intro k hk
  exact dictGet?_dictSet_ne parsed _ k _ (fun he => hk he.symm)

/-- Witness for C9 at a concrete parsed response and telemetry record. -/
theorem analysis_result_extended_with_telemetry_witness :
    dictGet?
      (dictSet [("technicalPrompt", JVal.jstr "tp")] "cv_telemetry"
        (telemetryJVal { person_detected := false, landmarks := [], spatial_hints := "" }))
      "technicalPrompt" = some (JVal.jstr "tp") :=
  ((analysis_result_extended_with_telemetry [("technicalPrompt", JVal.jstr "tp")]
      { person_detected := false, landmarks := [], spatial_hints := "" }).2.2.1
    "technicalPrompt" (by decide)).trans rfl

/-- Counterexample to C2: the response text of an empty JSON object parses
successfully and analyze_try_on returns it with only the cv_telemetry key
appended, although every one of the five required fields is absent: the
parse does not fail hard, since json.loads validates well-formedness only
and the required list is a request-side schema constraint. -/
theorem analysis_parse_missing_fields_no_failure_cex :
    analyze_try_on_result (Except.ok [])
        { person_detected := false, landmarks := [], spatial_hints := "" } =
      Except.ok [("cv_telemetry",
        telemetryJVal { person_detected := false, landmarks := [], spatial_hints := "" })] ∧
    dictGet? [] "garmentDescription" = none ∧
    dictGet? [] "personDescription" = none ∧
    dictGet? [] "bodySize" = none ∧
    dictGet? [] "technicalPrompt" = none ∧
    dictGet? [] "stylingSuggestions" = none ∧
    pyGet [("cv_telemetry",
        telemetryJVal { person_detected := false, landmarks := [], spatial_hints := "" })]
      "bodySize" (JVal.jstr "M") = JVal.jstr "M" :=
  ⟨rfl, rfl, rfl, rfl, rfl, rfl, rfl⟩

/-- C2 as amended: the analysis path performs no required-field validation
at the parse boundary. For any well-formed response object, even one
missing all five required fields, the call returns successfully; absence of
a field then surfaces only at the caller, where technicalPrompt subscript
access raises a KeyError while bodySize is silently replaced by the default
value M by dict.get. -/
theorem analysis_parse_missing_fields_behavior
    (parsed : List (String × JVal)) (cv_data : GroundingTelemetry)
    (habs : ∀ f ∈ analysisRequiredFields, dictGet? parsed f = none) :
    analyze_try_on_result (Except.ok parsed) cv_data =
      Except.ok (dictSet parsed "cv_telemetry" (telemetryJVal cv_data)) ∧
    pyGet (dictSet parsed "cv_telemetry" (telemetryJVal cv_data)) "bodySize"
        (JVal.jstr "M") = JVal.jstr "M" ∧
    pyGetItem (dictSet parsed "cv_telemetry" (telemetryJVal cv_data)) "technicalPrompt" =
      Except.error "KeyError: technicalPrompt" := by
  refine ⟨rfl, ?_, ?_⟩
  · unfold pyGet
    rw [dictGet?_dictSet_ne parsed _ _ _ (by decide)]
    rw [habs "bodySize" (by decide)]
    rfl
  · unfold pyGetItem
    rw [dictGet?_dictSet_ne parsed _ _ _ (by decide)]
    rw [habs "technicalPrompt" (by decide)]
    rfl

/-- Witness for the amended C2 at the empty parsed response. -/
theorem analysis_parse_missing_fields_behavior_witness :
    pyGet (dictSet [] "cv_telemetry"
        (telemetryJVal { person_detected := true, landmarks := [], spatial_hints := "" }))
      "bodySize" (JVal.jstr "M") = JVal.jstr "M" :=
  (analysis_parse_missing_fields_behavior []
    { person_detected := true, landmarks := [], spatial_hints := "" }
    (fun _ _ => rfl)).2.1

/-- Counterexample to C3: a response with an empty candidate list carries
no inline image data anywhere, yet the interpreter raises an index error at
candidates[0] instead of returning the explicit no-image outcome. -/
theorem synthesis_empty_candidates_raises_cex :
    generate_try_on_result { candidates := [] } =
      Except.error "IndexError: list index out of range" ∧
    generate_try_on_result { candidates := [] } ≠ Except.ok none :=
  ⟨rfl, by simp [generate_try_on_result]⟩

theorem findInlineDataUri_all_none (ps : List RespPart)
    (h : ∀ p ∈ ps, p.inline_data = none) : findInlineDataUri ps = none := by
  induction ps with
  | nil => rfl
  | cons p rest ih =>
      unfold findInlineDataUri
      rw [h p (by simp)]
      exact ih (fun q hq => h q (by simp [hq]))

theorem findInlineDataUri_first (pre : List RespPart) (part : RespPart)
    (post : List RespPart) (d : InlineData)
    (hpre : ∀ q ∈ pre, q.inline_data = none) (hd : part.inline_data = some d) :
    findInlineDataUri (pre ++ part :: post) =
      some ("data:" ++ d.mime_type ++ ";base64," ++ b64encode d.data) := by
  induction pre with
  | nil =>
      rw [List.nil_append]
      simp [findInlineDataUri, hd]
  | cons q rest ih =>
      rw [List.cons_append]
      unfold findInlineDataUri
      rw [hpre q (by simp)]
      exact ih (fun q2 hq2 => hpre q2 (by simp [hq2]))

/-- C3 as amended: when the response has at least one candidate, the parts
of the first candidate are scanned in order; the first part carrying inline
data yields a data URI of the form data, mime type, base64 payload, and a
scan finding no inline data yields the explicit no-image outcome None
without raising. A response with no candidates at all, however, raises at
the candidates subscript (see the counterexample). -/
theorem synthesis_scan_first_inline_or_none (response : SynthResponse)
    (c : Candidate) (rest : List Candidate)
    (hc : response.candidates = c :: rest) :
    generate_try_on_result response = Except.ok (findInlineDataUri c.content.parts) ∧
    ((∀ p ∈ c.content.parts, p.inline_data = none) →
      generate_try_on_result response = Except.ok none) ∧
    (∀ (pre : List RespPart) (part : RespPart) (post : List RespPart) (d : InlineData),
      c.content.parts = pre ++ part :: post →
      (∀ q ∈ pre, q.inline_data = none) →
      part.inline_data = some d →
      generate_try_on_result response =
        Except.ok (some ("data:" ++ d.mime_type ++ ";base64," ++ b64encode d.data))) := by
  have hbase : generate_try_on_result response =
      Except.ok (findInlineDataUri c.content.parts) := by
    unfold generate_try_on_result
    rw [hc]
  refine ⟨hbase, ?_, ?_⟩
  · intro hall
    rw [hbase, findInlineDataUri_all_none _ hall]
  · intro pre part post d hsplit hpre hd
    rw [hbase, hsplit, findInlineDataUri_first pre part post d hpre hd]

/-- Witness for the amended C3: a concrete response whose first candidate
has one data-free part followed by an inline PNG payload of three bytes. -/
theorem synthesis_scan_first_inline_or_none_witness :
    generate_try_on_result
      { candidates :=
        [{ content :=
          { parts :=
            [{ inline_data := none },
             { inline_data := some { mime_type := "image/png", data := [1, 2, 3] } }] } }] } =
      Except.ok (some "data:image/png;base64,AQID") := by
  have h := synthesis_scan_first_inline_or_none
    { candidates :=
      [{ content :=
        { parts :=
          [{ inline_data := none },
           { inline_data := some { mime_type := "image/png", data := [1, 2, 3] } }] } }] }
    { content :=
      { parts :=
        [{ inline_data := none },
         { inline_data := some { mime_type := "image/png", data := [1, 2, 3] } }] } }
    [] rfl
  have h2 := h.2.2 [{ inline_data := none }]
    { inline_data := some { mime_type := "image/png", data := [1, 2, 3] } }
    [] { mime_type := "image/png", data := [1, 2, 3] } rfl
    (by intro q hq; simp at hq; rw [hq]) rfl
  rw [h2]
  rfl

/-- C5: on every pose-estimation success the landmark set holds exactly the
four named joints in source order, and (under the interface contract that
the pose oracle yields normalized coordinates in the unit interval) each
stored coordinate lies in the unit interval and is rounded to exactly three
decimal places. -/
theorem pose_success_landmarks_exact (env : CvEnv) (image_b64 : String)
    (img : Img) (lm : Nat → Rat × Rat)
    (hdec : env.imdecode (b64decode image_b64) = some img)
    (hpose : env.pose_process (env.cvtColor img) = some lm)
    (hunit : ∀ i ∈ [LEFT_SHOULDER, RIGHT_SHOULDER, LEFT_HIP, RIGHT_HIP],
      0 ≤ (lm i).1 ∧ (lm i).1 ≤ 1 ∧ 0 ≤ (lm i).2 ∧ (lm i).2 ≤ 1) :
    (process_cv_grounding env image_b64).landmarks.map Prod.fst =
      ["L_Shoulder", "R_Shoulder", "L_Hip", "R_Hip"] ∧
    (∀ pt ∈ (process_cv_grounding env image_b64).landmarks,
      (0 ≤ pt.2.1 ∧ pt.2.1 ≤ 1 ∧ isRounded3 pt.2.1) ∧
      (0 ≤ pt.2.2 ∧ pt.2.2 ≤ 1 ∧ isRounded3 pt.2.2)) := by
  have he := process_cv_grounding_decode_some env image_b64 img hdec
  rw [he]
  simp only [hpose]
  constructor
  · rfl
  · intro pt hpt
    have hLS := hunit LEFT_SHOULDER (by simp)
    have hRS := hunit RIGHT_SHOULDER (by simp)
    have hLH := hunit LEFT_HIP (by simp)
    have hRH := hunit RIGHT_HIP (by simp)
    simp only [criticalPoints, List.mem_cons, List.not_mem_nil, or_false] at hpt
    rcases hpt with h | h | h | h <;> subst h <;>
      refine ⟨⟨pyRound3_nonneg _ ?_, pyRound3_le_one _ ?_, pyRound3_isRounded3 _⟩,
              ⟨pyRound3_nonneg _ ?_, pyRound3_le_one _ ?_, pyRound3_isRounded3 _⟩⟩ <;>
      tauto

/-- Witness for C5 at the concrete full environment. -/
theorem pose_success_landmarks_exact_witness :
    (process_cv_grounding envFull "Zm9v").landmarks.map Prod.fst =
      ["L_Shoulder", "R_Shoulder", "L_Hip", "R_Hip"] :=
  (pose_success_landmarks_exact envFull "Zm9v" [1] (fun _ => (1/2, 1/2)) rfl rfl
    (by intro i _; norm_num)).1

/-- C6: on a valid image with a detection, only the first (highest
confidence) box of the first result is used; its four coordinates (under
the interface contract that the detector yields normalized coordinates)
are rounded to exactly three decimals, stay in the unit interval, and are
appended to spatial_hints as the labeled SUBJECT_BOX segment. Detection is
restricted to the human class: any detector agreeing with the original at
the classes argument [0] yields identical telemetry, whatever it would
return for other class filters. -/
theorem detection_first_box_rounded (env : CvEnv) (image_b64 : String) (img : Img)
    (m : Img → List Nat → List YoloResult) (r0 : YoloResult) (rest : List YoloResult)
    (b0 : YoloBox) (bs : List YoloBox)
    (hdec : env.imdecode (b64decode image_b64) = some img)
    (hm : env.yolo_model = some m)
    (hr : m img [0] = r0 :: rest)
    (hbx : r0.boxes = b0 :: bs)
    (hunit : (0 ≤ b0.x1 ∧ b0.x1 ≤ 1) ∧ (0 ≤ b0.y1 ∧ b0.y1 ≤ 1) ∧
             (0 ≤ b0.x2 ∧ b0.x2 ≤ 1) ∧ (0 ≤ b0.y2 ∧ b0.y2 ≤ 1)) :
    (process_cv_grounding env image_b64).person_detected = true ∧
    (∀ q ∈ roundedBox b0, 0 ≤ q ∧ q ≤ 1 ∧ isRounded3 q) ∧
    (∃ tailSeg : String, (process_cv_grounding env image_b64).spatial_hints =
      subjectBoxSegment (roundedBox b0) ++ tailSeg) ∧
    (∀ m2 : Img → List Nat → List YoloResult, m2 img [0] = m img [0] →
      process_cv_grounding { env with yolo_model := some m2 } image_b64 =
        process_cv_grounding env image_b64) := by
  have he := process_cv_grounding_decode_some env image_b64 img hdec
  have hhit : yoloHit env img = true := by
    unfold yoloHit
    simp [hm, hr, hbx]
  have hfirst : firstYoloBox env img = some b0 := by
    unfold firstYoloBox
    simp [hm, hr, hbx]
  refine ⟨?_, ?_, ?_, ?_⟩
  · rw [he]
    exact hhit
  · intro q hq
    obtain ⟨h1, h2, h3, h4⟩ := hunit
    simp only [roundedBox, List.mem_cons, List.not_mem_nil, or_false] at hq
    rcases hq with h | h | h | h <;> subst h <;>
      exact ⟨pyRound3_nonneg _ (by tauto), pyRound3_le_one _ (by tauto),
        pyRound3_isRounded3 _⟩
  · rw [he]
    simp only [hfirst]
    exact ⟨_, rfl⟩
  · intro m2 hm2
    have hdec2 : ({ env with yolo_model := some m2 } : CvEnv).imdecode
        (b64decode image_b64) = some img := hdec
    have he2 := process_cv_grounding_decode_some
      { env with yolo_model := some m2 } image_b64 img hdec2
    rw [he2, he]
    have hhit2 : yoloHit { env with yolo_model := some m2 } img = yoloHit env img := by
      unfold yoloHit
      rw [hm]
      simp only [hm2]
    have hfirst2 : firstYoloBox { env with yolo_model := some m2 } img =
        firstYoloBox env img := by
      unfold firstYoloBox
      rw [hm]
      simp only [hm2]
    rw [hhit2, hfirst2]

/-- Witness for C6 at the concrete full environment. -/
theorem detection_first_box_rounded_witness :
    (process_cv_grounding envFull "Zm9v").person_detected = true :=
  (detection_first_box_rounded envFull "Zm9v" [1]
    (fun _ _ => [{ boxes := [{ x1 := 0, y1 := 0, x2 := 1/2, y2 := 1/2 }] }])
    { boxes := [{ x1 := 0, y1 := 0, x2 := 1/2, y2 := 1/2 }] } []
    { x1 := 0, y1 := 0, x2 := 1/2, y2 := 1/2 } []
    rfl rfl rfl rfl (by norm_num)).1

/-- Characters that can appear in the SUBJECT_BOX hint segment. -/
def subjChars : List Char := ("SUBJECT_BOX[]:,. ").data ++ numChars

/-- Characters that can appear in the SKELETON_MAP hint segment. -/
def skelChars : List Char := ("SKELETON_MAP\"LR_ShoulderHip[]:,. \x7b\x7d").data ++ numChars

theorem chars_append_subset {a b : String} {S : List Char}
    (ha : ∀ c ∈ a.data, c ∈ S) (hb : ∀ c ∈ b.data, c ∈ S) :
    ∀ c ∈ (a ++ b).data, c ∈ S := by
  intro c hc
  rw [String.data_append] at hc
  rcases List.mem_append.mp hc with h | h
  · exact ha c h
  · exact hb c h

theorem fmt3_chars_subj (q : Rat) : ∀ c ∈ (fmt3 q).data, c ∈ subjChars :=
  fun c h => by
    have := fmt3_mem_numChars q c h
    simp [subjChars, this]

theorem fmt3_chars_skel (q : Rat) : ∀ c ∈ (fmt3 q).data, c ∈ skelChars :=
  fun c h => by
    have := fmt3_mem_numChars q c h
    simp [skelChars, this]

theorem commaSep_chars (l : List Rat) :
    ∀ c ∈ (listRepr.commaSep l).data, c ∈ subjChars := by
  induction l with
  | nil => simp [listRepr.commaSep]
  | cons x xs ih =>
      cases xs with
      | nil => exact fmt3_chars_subj x
      | cons y ys =>
          have he : listRepr.commaSep (x :: y :: ys) =
              fmt3 x ++ ", " ++ listRepr.commaSep (y :: ys) := rfl
          rw [he]
          exact chars_append_subset (chars_append_subset (fmt3_chars_subj x) (by decide)) ih

theorem subjectBoxSegment_chars (box : List Rat) :
    ∀ c ∈ (subjectBoxSegment box).data, c ∈ subjChars := by
  unfold subjectBoxSegment listRepr
  exact chars_append_subset
    (chars_append_subset (by decide)
      (chars_append_subset (chars_append_subset (by decide) (commaSep_chars box))
        (by decide)))
    (by decide)

theorem jsonEntries_chars (pts : List (String × (Rat × Rat)))
    (hkeys : ∀ p ∈ pts, ∀ c ∈ (Prod.fst p).data, c ∈ skelChars) :
    ∀ c ∈ (jsonDumpsPoints.entries pts).data, c ∈ skelChars := by
  induction pts with
  | nil => simp [jsonDumpsPoints.entries]
  | cons p rest ih =>
      obtain ⟨k, x, y⟩ := p
      have hk : ∀ c ∈ k.data, c ∈ skelChars := hkeys (k, x, y) (by simp)
      cases rest with
      | nil =>
          have he : jsonDumpsPoints.entries [(k, (x, y))] =
              "\"" ++ k ++ "\": [" ++ fmt3 x ++ ", " ++ fmt3 y ++ "]" := rfl
          rw [he]
          exact chars_append_subset
            (chars_append_subset
              (chars_append_subset
                (chars_append_subset
                  (chars_append_subset (chars_append_subset (by decide) hk) (by decide))
                  (fmt3_chars_skel x))
                (by decide))
              (fmt3_chars_skel y))
            (by decide)
      | cons q qs =>
          have he : jsonDumpsPoints.entries ((k, (x, y)) :: q :: qs) =
              "\"" ++ k ++ "\": [" ++ fmt3 x ++ ", " ++ fmt3 y ++ "], " ++
              jsonDumpsPoints.entries (q :: qs) := rfl
          rw [he]
          exact chars_append_subset
            (chars_append_subset
              (chars_append_subset
                (chars_append_subset
                  (chars_append_subset
                    (chars_append_subset (chars_append_subset (by decide) hk) (by decide))
                    (fmt3_chars_skel x))
                  (by decide))
                (fmt3_chars_skel y))
              (by decide))
            (ih (fun p2 hp2 => hkeys p2 (by simp [hp2])))

theorem skeletonSegment_criticalPoints_chars (lm : Nat → Rat × Rat) :
    ∀ c ∈ (skeletonSegment (criticalPoints lm)).data, c ∈ skelChars := by
  unfold skeletonSegment jsonDumpsPoints
  refine chars_append_subset
    (chars_append_subset (by decide)
      (chars_append_subset (chars_append_subset (by decide) ?_) (by decide)))
    (by decide)
  refine jsonEntries_chars (criticalPoints lm) ?_
  intro p hp
  simp only [criticalPoints, List.mem_cons, List.not_mem_nil, or_false] at hp
  rcases hp with h2 | h2 | h2 | h2 <;> subst h2 <;>
    first
    | exact (by decide : ∀ c ∈ ("L_Shoulder" : String).data, c ∈ skelChars)
    | exact (by decide : ∀ c ∈ ("R_Shoulder" : String).data, c ∈ skelChars)
    | exact (by decide : ∀ c ∈ ("L_Hip" : String).data, c ∈ skelChars)
    | exact (by decide : ∀ c ∈ ("R_Hip" : String).data, c ∈ skelChars)

theorem strOccurs_append_left (n a b : String) (h : strOccurs n a) :
    strOccurs n (a ++ b) := by
  rcases h with ⟨l, r, he⟩
  exact ⟨l, r ++ b.data, by simp [String.data_append, he]⟩

theorem strOccurs_append_right (n a b : String) (h : strOccurs n b) :
    strOccurs n (a ++ b) := by
  rcases h with ⟨l, r, he⟩
  exact ⟨a.data ++ l, r, by simp [String.data_append, he]⟩

theorem strOccurs_self_append (n r : String) : strOccurs n (n ++ r) :=
  ⟨[], r.data, by simp [String.data_append]⟩

theorem not_strOccurs_empty (n : String) (hn : n.data ≠ []) :
    ¬ strOccurs n "" := by
  rintro ⟨l, r, he⟩
  have h0 : ("" : String).data = [] := rfl
  rw [h0] at he
  simp only [List.append_assoc, List.nil_eq, List.append_eq_nil] at he
  exact hn he.2.1

theorem not_strOccurs_subject_in_skel (lm : Nat → Rat × Rat) :
    ¬ strOccurs "SUBJECT_BOX" (skeletonSegment (criticalPoints lm)) := by
  intro h
  have hB := strOccurs_chars h 'B' (by decide)
  have h3 := skeletonSegment_criticalPoints_chars lm 'B' hB
  exact absurd h3 (by decide)

theorem not_strOccurs_skel_in_subject (box : List Rat) :
    ¬ strOccurs "SKELETON_MAP" (subjectBoxSegment box) := by
  intro h
  have hK := strOccurs_chars h 'K' (by decide)
  have h3 := subjectBoxSegment_chars box 'K' hK
  exact absurd h3 (by decide)

theorem strOccurs_subject_label (box : List Rat) :
    strOccurs "SUBJECT_BOX" (subjectBoxSegment box) := by
  unfold subjectBoxSegment
  rw [show ("SUBJECT_BOX: " : String) = "SUBJECT_BOX" ++ ": " from by decide]
  exact strOccurs_append_left _ _ _ (strOccurs_append_left _ _ _ (strOccurs_self_append _ _))

theorem strOccurs_skel_label (pts : List (String × (Rat × Rat))) :
    strOccurs "SKELETON_MAP" (skeletonSegment pts) := by
  unfold skeletonSegment
  rw [show ("SKELETON_MAP: " : String) = "SKELETON_MAP" ++ ": " from by decide]
  exact strOccurs_append_left _ _ _ (strOccurs_append_left _ _ _ (strOccurs_self_append _ _))

theorem yoloHit_eq_isSome (env : CvEnv) (img : Img) :
    yoloHit env img = (firstYoloBox env img).isSome := by
  unfold yoloHit firstYoloBox
  cases env.yolo_model with
  | none => rfl
  | some m =>
      cases hr : m img [0] with
      | nil => simp [hr]
      | cons r0 rest => cases hb : r0.boxes <;> simp [hr, hb]

/-- C7: on successful decode, spatial_hints is exactly the concatenation of
the segments of whichever of the detection box and landmark set is present:
the SUBJECT_BOX segment appears iff a person detection was made, the
SKELETON_MAP segment appears iff landmarks were found, and when neither is
present the hints are empty and person_detected is false. -/
theorem spatial_hints_exact_serialization (env : CvEnv) (image_b64 : String) (img : Img)
    (hdec : env.imdecode (b64decode image_b64) = some img) :
    ((process_cv_grounding env image_b64).spatial_hints =
      (match firstYoloBox env img with
        | none => ""
        | some b0 => subjectBoxSegment (roundedBox b0)) ++
      (match env.pose_process (env.cvtColor img) with
        | none => ""
        | some lm => skeletonSegment (criticalPoints lm))) ∧
    ((process_cv_grounding env image_b64).person_detected = yoloHit env img) ∧
    (strOccurs "SUBJECT_BOX" (process_cv_grounding env image_b64).spatial_hints ↔
      yoloHit env img = true) ∧
    (strOccurs "SKELETON_MAP" (process_cv_grounding env image_b64).spatial_hints ↔
      (env.pose_process (env.cvtColor img)).isSome = true) ∧
    (yoloHit env img = false → env.pose_process (env.cvtColor img) = none →
      (process_cv_grounding env image_b64).spatial_hints = "" ∧
      (process_cv_grounding env image_b64).person_detected = false) := by
  have he := process_cv_grounding_decode_some env image_b64 img hdec
  have hsome := yoloHit_eq_isSome env img
  rw [he]
  cases hfb : firstYoloBox env img with
  | none =>
      rw [hfb] at hsome
      cases hp : env.pose_process (env.cvtColor img) with
      | none =>
          refine ⟨rfl, rfl, ?_, ?_, fun hh _ => ⟨by simp, hh⟩⟩
          · rw [hsome]
            simp only [Option.isSome_none]
            constructor
            · intro h
              exact absurd (by simpa using h) (not_strOccurs_empty _ (by decide))
            · intro h
              exact absurd h (by decide)
          · simp only [Option.isSome_none]
            constructor
            · intro h
              exact absurd (by simpa using h) (not_strOccurs_empty _ (by decide))
            · intro h
              exact absurd h (by decide)
      | some lm =>
          refine ⟨rfl, rfl, ?_, ?_, ?_⟩
          · rw [hsome]
            simp only [Option.isSome_none]
            constructor
            · intro h
              exact absurd (by simpa using h) (not_strOccurs_subject_in_skel lm)
            · intro h
              exact absurd h (by decide)
          · refine ⟨fun _ => rfl, fun _ => ?_⟩
            have := strOccurs_skel_label (criticalPoints lm)
            show strOccurs "SKELETON_MAP" ("" ++ skeletonSegment (criticalPoints lm))
            simpa using this
          · intro _ hpn
            exact absurd hpn (by simp)
  | some b0 =>
      rw [hfb] at hsome
      cases hp : env.pose_process (env.cvtColor img) with
      | none =>
          refine ⟨rfl, rfl, ?_, ?_, ?_⟩
          · rw [hsome]
            refine ⟨fun _ => rfl, fun _ => ?_⟩
            have := strOccurs_subject_label (roundedBox b0)
            show strOccurs "SUBJECT_BOX" (subjectBoxSegment (roundedBox b0) ++ "")
            exact strOccurs_append_left _ _ _ this
          · simp only [Option.isSome_none]
            constructor
            · intro h
              have h2 : strOccurs "SKELETON_MAP" (subjectBoxSegment (roundedBox b0)) := by
                simpa using h
              exact absurd h2 (not_strOccurs_skel_in_subject _)
            · intro h
              exact absurd h (by decide)
          · intro hcontra _
            rw [hsome] at hcontra
            simp at hcontra
      | some lm =>
          refine ⟨rfl, rfl, ?_, ?_, ?_⟩
          · rw [hsome]
            exact ⟨fun _ => rfl,
              fun _ => strOccurs_append_left _ _ _ (strOccurs_subject_label _)⟩
          · exact ⟨fun _ => rfl,
              fun _ => strOccurs_append_right _ _ _ (strOccurs_skel_label _)⟩
          · intro hcontra _
            rw [hsome] at hcontra
            simp at hcontra

/-- Witness for C7 at the bare environment: decode succeeds with neither
model yielding anything, so the hints are empty and no person is flagged. -/
theorem spatial_hints_exact_serialization_witness :
    (process_cv_grounding envBare "Zm9v").spatial_hints = "" ∧
    (process_cv_grounding envBare "Zm9v").person_detected = false :=
  (spatial_hints_exact_serialization envBare "Zm9v" [1] rfl).2.2.2.2 rfl rfl

/-- Decoded image payloads of a part list, in order. -/
def imageDatas : List MsgPart → List (List Nat)
  | [] => []
  | MsgPart.from_bytes d _ :: r => d :: imageDatas r
  | MsgPart.text _ :: r => imageDatas r

/-- Text contents of a part list, in order. -/
def textParts : List MsgPart → List String
  | [] => []
  | MsgPart.text s :: r => s :: textParts r
  | MsgPart.from_bytes _ _ :: r => textParts r

theorem imageDatas_append (l1 l2 : List MsgPart) :
    imageDatas (l1 ++ l2) = imageDatas l1 ++ imageDatas l2 := by
  induction l1 with
  | nil => rfl
  | cons x r ih => cases x <;> simp [imageDatas, ih]

theorem textParts_append (l1 l2 : List MsgPart) :
    textParts (l1 ++ l2) = textParts l1 ++ textParts l2 := by
  induction l1 with
  | nil => rfl
  | cons x r ih => cases x <;> simp [textParts, ih]

/-- The six garment-role labels used across the two compositions. -/
def garmentLabels : List String :=
  ["SOURCE_TOP (Exact design source):", "SOURCE_BOTTOM (Exact texture source):",
   "SOURCE_DRESS (Exact pattern source):", "SOURCE_TOP (Preserve this exact logo):",
   "SOURCE_BOTTOM (Preserve this exact fabric):", "SOURCE_DRESS (Preserve this exact pattern):"]

theorem ne_of_length_lt (x lbl : String) (h : lbl.length < x.length) : x ≠ lbl := by
  intro he
  rw [he] at h
  omega

theorem length_le_append_right (a b : String) (n : Nat) (hn : n ≤ a.length) :
    n ≤ (a ++ b).length := by
  rw [String.length_append]
  omega

theorem analysisPrompt_ne_short (hints lbl : String) (hl : lbl.length < 50) :
    analysisPrompt hints ≠ lbl := by
  refine ne_of_length_lt _ _ (lt_of_lt_of_le hl ?_)
  unfold analysisPrompt
  refine length_le_append_right _ _ _ ?_
  refine length_le_append_right _ _ _ ?_
  decide

theorem synthesisPrompt_ne_short (hints tp lbl : String) (hl : lbl.length < 50) :
    synthesisPrompt hints tp ≠ lbl := by
  refine ne_of_length_lt _ _ (lt_of_lt_of_le hl ?_)
  unfold synthesisPrompt
  refine length_le_append_right _ _ _ ?_
  refine length_le_append_right _ _ _ ?_
  refine length_le_append_right _ _ _ ?_
  refine length_le_append_right _ _ _ ?_
  decide

theorem contents_shape (p : String) (t b d : Option String) (hints tp : String)
    (ht : ∀ s, t = some s → s ≠ "")
    (hb : ∀ s, b = some s → s ≠ "")
    (hd : ∀ s, d = some s → s ≠ "") :
    imageDatas (analyzeContents p t b d hints) =
      (p :: (t.toList ++ b.toList ++ d.toList)).map b64decode ∧
    imageDatas (generateContents p t b d hints tp) =
      (p :: (t.toList ++ b.toList ++ d.toList)).map b64decode ∧
    textParts (analyzeContents p t b d hints) =
      [analysisPrompt hints, "TARGET_PERSON:"]
        ++ (t.toList.map fun _ => "SOURCE_TOP (Exact design source):")
        ++ (b.toList.map fun _ => "SOURCE_BOTTOM (Exact texture source):")
        ++ (d.toList.map fun _ => "SOURCE_DRESS (Exact pattern source):") ∧
    textParts (generateContents p t b d hints tp) =
      [synthesisPrompt hints tp, "TARGET_PERSON:"]
        ++ (t.toList.map fun _ => "SOURCE_TOP (Preserve this exact logo):")
        ++ (b.toList.map fun _ => "SOURCE_BOTTOM (Preserve this exact fabric):")
        ++ (d.toList.map fun _ => "SOURCE_DRESS (Preserve this exact pattern):") := by
  rcases t with _ | s1 <;> rcases b with _ | s2 <;> rcases d with _ | s3 <;>
    (try have h1 : s1 ≠ "" := ht s1 rfl) <;>
    (try have h2 : s2 ≠ "" := hb s2 rfl) <;>
    (try have h3 : s3 ≠ "" := hd s3 rfl) <;>
    refine ⟨?_, ?_, ?_, ?_⟩ <;>
    simp [analyzeContents, generateContents, garmentParts, imageDatas, textParts,
      imageDatas_append, textParts_append, *]

/-- C4: both compositions always attach the target-person image first,
labeled TARGET_PERSON: which is distinct from every garment label; each
supplied garment role contributes exactly one labeled image attachment in
the fixed order top, bottom, dress; and no attachment or label appears for
a role that was not supplied. Supplied payloads are nonempty (a base64
encoding of an actual upload), matching the truthiness test of the source. -/
theorem composition_exact_garment_roles (p : String) (t b d : Option String)
    (hints tp : String)
    (ht : ∀ s, t = some s → s ≠ "")
    (hb : ∀ s, b = some s → s ≠ "")
    (hd : ∀ s, d = some s → s ≠ "") :
    imageDatas (analyzeContents p t b d hints) =
      (p :: (t.toList ++ b.toList ++ d.toList)).map b64decode ∧
    imageDatas (generateContents p t b d hints tp) =
      (p :: (t.toList ++ b.toList ++ d.toList)).map b64decode ∧
    textParts (analyzeContents p t b d hints) =
      [analysisPrompt hints, "TARGET_PERSON:"]
        ++ (t.toList.map fun _ => "SOURCE_TOP (Exact design source):")
        ++ (b.toList.map fun _ => "SOURCE_BOTTOM (Exact texture source):")
        ++ (d.toList.map fun _ => "SOURCE_DRESS (Exact pattern source):") ∧
    textParts (generateContents p t b d hints tp) =
      [synthesisPrompt hints tp, "TARGET_PERSON:"]
        ++ (t.toList.map fun _ => "SOURCE_TOP (Preserve this exact logo):")
        ++ (b.toList.map fun _ => "SOURCE_BOTTOM (Preserve this exact fabric):")
        ++ (d.toList.map fun _ => "SOURCE_DRESS (Preserve this exact pattern):") ∧
    "TARGET_PERSON:" ∈ textParts (analyzeContents p t b d hints) ∧
    "TARGET_PERSON:" ∈ textParts (generateContents p t b d hints tp) ∧
    "TARGET_PERSON:" ∉ garmentLabels ∧
    (t = none → "SOURCE_TOP (Exact design source):" ∉
      textParts (analyzeContents p t b d hints)) ∧
    (b = none → "SOURCE_BOTTOM (Exact texture source):" ∉
      textParts (analyzeContents p t b d hints)) ∧
    (d = none → "SOURCE_DRESS (Exact pattern source):" ∉
      textParts (analyzeContents p t b d hints)) ∧
    (t = none → "SOURCE_TOP (Preserve this exact logo):" ∉
      textParts (generateContents p t b d hints tp)) ∧
    (b = none → "SOURCE_BOTTOM (Preserve this exact fabric):" ∉
      textParts (generateContents p t b d hints tp)) ∧
    (d = none → "SOURCE_DRESS (Preserve this exact pattern):" ∉
      textParts (generateContents p t b d hints tp)) := by
  obtain ⟨hi1, hi2, ht1, ht2⟩ := contents_shape p t b d hints tp ht hb hd
  refine ⟨hi1, hi2, ht1, ht2, ?_, ?_, by decide, ?_, ?_, ?_, ?_, ?_, ?_⟩
  · rw [ht1]
    simp
  · rw [ht2]
    simp
  · intro hn
    subst hn
    rw [ht1]
    simp [Ne.symm (analysisPrompt_ne_short hints
      "SOURCE_TOP (Exact design source):" (by decide))]
  · intro hn
    subst hn
    rw [ht1]
    simp [Ne.symm (analysisPrompt_ne_short hints
      "SOURCE_BOTTOM (Exact texture source):" (by decide))]
  · intro hn
    subst hn
    rw [ht1]
    simp [Ne.symm (analysisPrompt_ne_short hints
      "SOURCE_DRESS (Exact pattern source):" (by decide))]
  · intro hn
    subst hn
    rw [ht2]
    simp [Ne.symm (synthesisPrompt_ne_short hints tp
      "SOURCE_TOP (Preserve this exact logo):" (by decide))]
  · intro hn
    subst hn
    rw [ht2]
    simp [Ne.symm (synthesisPrompt_ne_short hints tp
      "SOURCE_BOTTOM (Preserve this exact fabric):" (by decide))]
  · intro hn
    subst hn
    rw [ht2]
    simp [Ne.symm (synthesisPrompt_ne_short hints tp
      "SOURCE_DRESS (Preserve this exact pattern):" (by decide))]

/-- Witness for C4: only a top garment supplied yields exactly two image
attachments (person then top) and exactly the top label among the texts. -/
theorem composition_exact_garment_roles_witness :
    imageDatas (analyzeContents "cGVyc29u" (some "dG9w") none none "") =
      [b64decode "cGVyc29u", b64decode "dG9w"] ∧
    textParts (analyzeContents "cGVyc29u" (some "dG9w") none none "") =
      [analysisPrompt "", "TARGET_PERSON:", "SOURCE_TOP (Exact design source):"] := by
  have h := composition_exact_garment_roles "cGVyc29u" (some "dG9w") none none "" ""
    (fun s hs => by cases hs; decide) (fun s hs => by cases hs) (fun s hs => by cases hs)
  exact ⟨h.1, h.2.2.1⟩
